import Mathlib

/-!
Verification development for the per-chapter download/repackaging core
(`src/Episode.py`).  The Python code is shallowly embedded: strings are
`List Char`, byte buffers are `List Nat`, network and filesystem effects are
driven by explicit oracles (one oracle entry per attempted request / write),
and raised exceptions are `Except PyExc`.  Emitted warning/confirm boxes
(`signal_warning_box.emit` / `signal_confirm_box.emit`) are collected as
`Event` values; `logger.*` calls are not modelled.
-/

/-- Python exception classes that the embedded code can raise.  In `requests`,
`RequestException` (and hence `HTTPError`) subclasses `IOError = OSError`,
which is what `isOSErr` reflects. -/
inductive PyExc
  | keyError | valueError | indexError | osError | requestException | httpError
deriving DecidableEq, Repr

deriving instance DecidableEq for Except

/-- Whether an exception is caught by `except OSError`. -/
def PyExc.isOSErr : PyExc → Bool
  | .osError => true
  | .requestException => true
  | .httpError => true
  | _ => false

/-- User-facing events the core emits (warning / confirm boxes). -/
inductive Event
  | warnListFail | warnTokenFail | confirmSmsVerify
  | warnDownloadFail | warnProcessImgFail | warnSaveFail
deriving DecidableEq, Repr

/-! ## Small Python string helpers -/

/-- Model of the characters matched by `\s` in a Python `str` regex and
stripped by `str.strip()` (ASCII whitespace; the exotic Unicode whitespace
codepoints never occur in the titles at hand). -/
def isSp (c : Char) : Bool :=
  c = ' ' || c = '\t' || c = '\n' || c = '\r' || c = '\x0b' || c = '\x0c'

/-- `str.split(sep)` for a one-character separator: keeps empty fields,
`"".split(sep) == [""]`. -/
def pySplit (sep : Char) : List Char → List (List Char)
  | [] => [[]]
  | c :: ts =>
    if c = sep then [] :: pySplit sep ts
    else
      match pySplit sep ts with
      | [] => [[c]]
      | g :: gs => (c :: g) :: gs

/-- `str.strip()`. -/
def pyStrip (l : List Char) : List Char :=
  ((l.dropWhile isSp).reverse.dropWhile isSp).reverse

/-- `needle in haystack` for Python strings (substring test). -/
def isSubstr (pat : List Char) : List Char → Bool
  | [] => pat.isEmpty
  | c :: ts => pat.isPrefixOf (c :: ts) || isSubstr pat ts

/-- `str(n)` for a natural number. -/
def natRepr (n : Nat) : List Char := (Nat.repr n).toList

/-- `str(i).zfill(w)` / `f"{i:0wd}"` for a natural number. -/
def padNat (w : Nat) (n : Nat) : List Char :=
  List.replicate (w - (natRepr n).length) '0' ++ natRepr n

/-- `f"{i:0wd}"` for an integer (the sign counts towards the width). -/
def padInt (w : Nat) (n : Int) : List Char :=
  if n < 0 then '-' :: padNat (w - 1) n.natAbs else padNat w n.toNat

/-- `int(s)`: optional surrounding whitespace, optional sign, a nonempty
digit run; anything else raises `ValueError` (`none`). -/
def pyInt (s : List Char) : Option Int :=
  let t := pyStrip s
  let core : List Char → Option Nat := fun d =>
    if d ≠ [] ∧ d.all Char.isDigit then
      some (d.foldl (fun a c => a * 10 + (c.toNat - '0'.toNat)) 0)
    else none
  match t with
  | '-' :: d => (core d).map (fun n => -(n : Int))
  | '+' :: d => (core d).map (fun n => (n : Int))
  | d => (core d).map (fun n => (n : Int))

/-! ## Title normalizer: `get_default_title` (Episode.py lines 148-182)

The regex cleanups are all anchored at the start of the string (`^...`), so
each one is a prefix rewrite.  `\d` is modelled as an ASCII digit and `\s` by
`isSp`.  Since the character after each greedy class run is a literal not in
the class, the regexes match exactly when maximal-munch parsing succeeds. -/

/-- Parse `^(\d+)\s+` : a nonempty digit run then a nonempty whitespace run;
returns the digits and the rest after the whitespace. -/
def parseNumSp (l : List Char) : Option (List Char × List Char) :=
  let d := l.takeWhile Char.isDigit
  let r1 := l.dropWhile Char.isDigit
  let sp := r1.takeWhile isSp
  let r2 := r1.dropWhile isSp
  if d ≠ [] ∧ sp ≠ [] then some (d, r2) else none

/-- Lines 164-166: if `^(\d+)\s+第(\d+)话` matches with equal groups,
`re.sub(r"^\d+\s+(第\d+话)", r"\1", title)`. -/
def stage1 (t : List Char) : List Char :=
  match parseNumSp t with
  | none => t
  | some (d1, r) =>
    match r with
    | '第' :: r2 =>
      let d2 := r2.takeWhile Char.isDigit
      match r2.dropWhile Char.isDigit with
      | '话' :: rest => if d2 ≠ [] ∧ d1 = d2 then '第' :: (d2 ++ '话' :: rest) else t
      | _ => t
    | _ => t

/-- Lines 167-169: if `^(\d+)\s+第(\d+)$` matches with equal groups,
`re.sub(r"^\d+\s+(第\d+)$", r"\1话", title)`. -/
def stage2 (t : List Char) : List Char :=
  match parseNumSp t with
  | none => t
  | some (d1, r) =>
    match r with
    | '第' :: r2 =>
      let d2 := r2.takeWhile Char.isDigit
      if d2 ≠ [] ∧ r2.dropWhile Char.isDigit = [] ∧ d1 = d2
      then '第' :: (d2 ++ ['话']) else t
    | _ => t

/-- The three characters `特别篇`. -/
def tbp : List Char := ['特', '别', '篇']

/-- The leading `^特别篇\s+特别篇` pattern of lines 170-171: on success
returns the rest of the string after the second `特别篇`. -/
def dupTbpSplit (t : List Char) : Option (List Char) :=
  if t.take 3 = tbp then
    let r := t.drop 3
    let sp := r.takeWhile isSp
    let r2 := r.dropWhile isSp
    if sp ≠ [] ∧ r2.take 3 = tbp then some (r2.drop 3) else none
  else none

/-- Lines 170-171: `re.sub(r"^特别篇\s+特别篇", r"特别篇", title)`. -/
def stage3 (t : List Char) : List Char :=
  match dupTbpSplit t with
  | some rest => tbp ++ rest
  | none => t

/-- The character class `[0-9\-\.]` of lines 175-180. -/
def isCls (c : Char) : Bool := c.isDigit || c = '-' || c = '.'

/-- Lines 175-180: the three-way `if/elif/elif` on `^[0-9\-\.]+话`,
`^[0-9\-\.]+ ` (a literal space) and `^[0-9\-\.]+$`, each rewriting the
number prefix to the canonical `第<N>话` wording. -/
def stage4 (t : List Char) : List Char :=
  let d := t.takeWhile isCls
  if d = [] then t
  else
    match t.dropWhile isCls with
    | '话' :: rest => '第' :: (d ++ '话' :: rest)
    | ' ' :: rest => '第' :: (d ++ '话' :: ' ' :: rest)
    | [] => '第' :: (d ++ ['话'])
    | _ => t

/-- The full regex-cleanup pass of `get_default_title` (lines 164-180). -/
def cleanup (t : List Char) : List Char := stage4 (stage3 (stage2 (stage1 t)))

/-- Lines 157-162.  The first `if` (lines 157-158, `short == long or
long == ""` ↦ `short`) is a dead store in the source: the following
`if/else` (lines 159-162) is not an `elif` and unconditionally overwrites
`title`, so the observable value is decided by lines 159-162 alone. -/
def title_pre_cleanup (s l : List Char) : List Char :=
  if s.isPrefixOf l then l else s ++ ' ' :: l

/-- `get_default_title` (lines 148-182): the line 159-162 base title followed
by the regex cleanups. -/
def get_default_title (s l : List Char) : List Char :=
  cleanup (title_pre_cleanup s l)

/-! ## Rename rules: `rename_title` (Episode.py lines 104-144)

State mutated by the method: `self.title`, `self.short_title`,
`self.long_title`, `self.ord` (handled as its `str()` form, since the loop
reassigns it to a string) and the read-only `self.idx`.  An exception during
rule application (the `ValueError` of an `int()` call or of the unpacking
`self.ord, decimal = str(self.ord).split(".")`) is returned as `.error`
(the constructor catches it and keeps the default title). -/

structure EpState where
  title : List Char
  short_title : List Char
  long_title : List Char
  ordStr : List Char
  idx : Nat
deriving DecidableEq, Repr

/-- `rule.endswith("ord")`. -/
def endsWithOrd (rule : List Char) : Bool :=
  List.isSuffixOf ['o', 'r', 'd'] rule

/-- One iteration of the `for rule in rules` loop (lines 121-142): carries
the accumulated `title`, the current `self.ord` string and `decimal`. -/
def renameStep (st : EpState) (acc ordS decimal rule : List Char) :
    Except PyExc (List Char × List Char × List Char) :=
  let split? : Except PyExc (List Char × List Char) :=
    if endsWithOrd rule ∧ '.' ∈ ordS then
      match pySplit '.' ordS with
      | [a, b] => .ok (a, '.' :: b)
      | _ => .error .valueError
    else .ok (ordS, decimal)
  match split? with
  | .error e => .error e
  | .ok (ordS', decimal') =>
    if rule = "default".toList then .ok (acc ++ ' ' :: st.title, ordS', decimal')
    else if rule = "idx".toList then .ok (acc ++ ' ' :: natRepr st.idx, ordS', decimal')
    else if rule = "3idx".toList then .ok (acc ++ ' ' :: padNat 3 st.idx, ordS', decimal')
    else if rule = "4idx".toList then .ok (acc ++ ' ' :: padNat 4 st.idx, ordS', decimal')
    else if rule = "ord".toList then .ok (acc ++ ' ' :: (ordS' ++ decimal'), ordS', decimal')
    else if rule = "3ord".toList then
      match pyInt ordS' with
      | some n => .ok (acc ++ ' ' :: (padInt 3 n ++ decimal'), ordS', decimal')
      | none => .error .valueError
    else if rule = "4ord".toList then
      match pyInt ordS' with
      | some n => .ok (acc ++ ' ' :: (padInt 4 n ++ decimal'), ordS', decimal')
      | none => .error .valueError
    else if rule = "short".toList then .ok (acc ++ ' ' :: st.short_title, ordS', decimal')
    else if rule = "long".toList then .ok (acc ++ ' ' :: st.long_title, ordS', decimal')
    else .ok (acc, ordS', decimal')

/-- The whole rule loop. -/
def renameLoop (st : EpState) : List (List Char) → List Char → List Char → List Char →
    Except PyExc (List Char × List Char)
  | [], acc, ordS, _ => .ok (acc, ordS)
  | rule :: rest, acc, ordS, decimal =>
    match renameStep st acc ordS decimal rule with
    | .error e => .error e
    | .ok (acc', ordS', decimal') => renameLoop st rest acc' ordS' decimal'

/-- `rename_title` (lines 104-144).  Note line 115 of the source: the guard
is `"short&long" in rules` where `rules = str(rename_rule).split("&")`, i.e.
membership of the literal string `"short&long"` in the token list obtained
by splitting on `"&"`. -/
def rename_title (rename_rule : List Char) (st : EpState) : Except PyExc EpState :=
  if rename_rule = [] ∨ rename_rule = "default".toList then .ok st
  else
    let rules := pySplit '&' rename_rule
    let st1 := if st.long_title = [] ∧ "long".toList ∈ rules ∧ "short".toList ∉ rules
               then { st with long_title := st.short_title } else st
    let st2 := if st1.short_title.isPrefixOf st1.long_title ∧ "short&long".toList ∈ rules
               then { st1 with short_title := st1.long_title, long_title := [] } else st1
    match renameLoop st2 rules [] st2.ordStr [] with
    | .error e => .error e
    | .ok (acc, ordS') => .ok { st2 with title := pyStrip acc, ordStr := ordS' }

/-! ## Retry wrapper

Both `@retry(stop_max_delay=...)` (duration-bounded) and
`@retry(stop_max_attempt_number=...)` (attempt-bounded) wrappers are modelled
by a list of oracle entries, one per attempt the budget allows: the wrapped
body runs on successive entries until it succeeds, and when the budget is
exhausted the `retrying` library re-raises the last exception
(`wrap_exception` is left at its default `False`). -/

def retryOp (dflt : PyExc) (step : α → Except PyExc β) : List α → Except PyExc β
  | [] => .error dflt
  | [a] => step a
  | a :: b :: rest =>
    match step a with
    | .ok v => .ok v
    | .error _ => retryOp dflt step (b :: rest)

/-! ## Image manifest resolver: `init_imgsList` (Episode.py lines 185-313) -/

/-- One response of the `GetImageIndex` endpoint: a transport exception, or a
status code together with the decoded `data.images[*].path` list. -/
inductive ListAttempt
  | exn
  | resp (status : Nat) (images : List (List Char))
deriving DecidableEq, Repr

/-- Lines 199-217: raise on transport error or non-200 status, else return
the image path list. -/
def listStep (a : ListAttempt) : Except PyExc (List (List Char)) :=
  match a with
  | .exn => .error .requestException
  | .resp status images => if status ≠ 200 then .error .httpError else .ok images

/-- One entry of the `ImageToken` response `data` array. -/
structure TokenEntry where
  url : List Char
  complete_url : List Char
  token : List Char
deriving DecidableEq, Repr

/-- One response of the `ImageToken` endpoint. -/
inductive TokAttempt
  | exn
  | resp (status : Nat) (code : Int) (data : List TokenEntry)
deriving DecidableEq, Repr

/-- Lines 261-280: raise on transport error, non-200 status, or non-zero
application-level `code`. -/
def tokStep (a : TokAttempt) : Except PyExc (List TokenEntry) :=
  match a with
  | .exn => .error .requestException
  | .resp status code data =>
    if status ≠ 200 ∨ code ≠ 0 then .error .httpError else .ok data

/-- The `img_format_list` dict literal of lines 236-250, in source order:
the key `"1400webp"` appears twice (lines 245-246). -/
def img_format_pairs : List (List Char × List Char) :=
  [("default".toList, "".toList),
   ("jpg".toList, "@10000w.jpg".toList),
   ("webp".toList, "@10000w.webp".toList),
   ("avif".toList, "@10000w.avif".toList),
   ("1700jpg".toList, "@1700w.jpg".toList),
   ("1400jpg".toList, "@1400w.jpg".toList),
   ("1100jpg".toList, "@1100w.jpg".toList),
   ("1700webp".toList, "@1700w.webp".toList),
   ("1400webp".toList, "@1400w.webp".toList),
   ("1400webp".toList, "@1100w.webp".toList),
   ("1700avif".toList, "@1700w.avif".toList),
   ("1400avif".toList, "@1400w.avif".toList),
   ("1100avif".toList, "@1100w.avif".toList)]

/-- Lookup in a Python dict literal: a later binding of the same key
overwrites an earlier one; a missing key raises `KeyError` (`none`). -/
def dictLit (ps : List (List Char × List Char)) (k : List Char) : Option (List Char) :=
  ((ps.filter (fun p => p.1 = k)).getLast?).map (fun p => p.2)

/-- The comprehension of line 252:
`[img_url + img_format_list[img_format] for img_url in imgs_urls]`.
The subscript `img_format_list[img_format]` is evaluated once per element,
left to right, so a missing key raises `KeyError` only when the fetched
image list is non-empty (an empty comprehension performs no lookup). -/
def applySuffix (fmt : List Char) : List (List Char) → Except PyExc (List (List Char))
  | [] => .ok []
  | u :: us =>
    match dictLit img_format_pairs fmt with
    | none => .error .keyError
    | some suf =>
      match applySuffix fmt us with
      | .error e => .error e
      | .ok rest => .ok ((u ++ suf) :: rest)

/-- `"token="`. -/
def tokenMarker : List Char := "token=".toList

/-- Result of `init_imgsList`: the returned bool (or escaped exception), the
new value of the process-wide `mainGUI.need_sms_verify` flag, and the events
emitted. -/
structure InitResult where
  result : Except PyExc Bool
  need_sms_verify : Bool
  events : List Event
deriving DecidableEq, Repr

/-- `init_imgsList` (lines 185-313).  The two network fetches are driven by
oracles; the suffixed url list that would be POSTed to the token endpoint is
computed but the request body itself is not modelled (the oracle already
fixes the responses).  Note the source order: the risk-control check of
lines 296-313 runs only after both fetches succeeded, and the per-element
suffix lookup of the line-252 comprehension can raise `KeyError` (for a
non-empty fetched list). -/
def init_imgsList (need_sms_verify : Bool) (img_format : List Char)
    (listO : List ListAttempt) (tokO : List TokAttempt) : InitResult :=
  match retryOp .requestException listStep listO with
  | .error _ => ⟨.ok false, need_sms_verify, [.warnListFail]⟩
  | .ok imgs_urls =>
    match applySuffix img_format imgs_urls with
    | .error e => ⟨.error e, need_sms_verify, []⟩
    | .ok _urls =>
      match retryOp .requestException tokStep tokO with
      | .error _ => ⟨.ok false, need_sms_verify, [.warnTokenFail]⟩
      | .ok data =>
        if need_sms_verify then ⟨.ok false, need_sms_verify, []⟩
        else
          match data.head? with
          | none => ⟨.error .indexError, need_sms_verify, []⟩
          | some first =>
            if isSubstr tokenMarker first.complete_url = false ∧
               isSubstr tokenMarker first.url = false
            then ⟨.ok false, true, [.confirmSmsVerify]⟩
            else ⟨.ok true, need_sms_verify, []⟩

/-! ## Image acquisition: `downloadImg` (Episode.py lines 632-758)

The AES-CBC primitive (`AES_CBCDecrypt`), the url-unquoting and the base64
decoding live in `src/Utils.py` / the standard library and are outside the
excerpted sources; they enter the embedding as opaque function parameters
`aes`, `unq`, `b64` (the claims under verification only constrain how
`downloadImg` wires them together).  Likewise the checksum recomputation of
`isCheckSumValid` is a parameter `md5h : List Nat → List Char` compared
against the captured `Etag` header. -/

/-- One response of the image CDN GET (lines 647-671): transport exception,
or a status code, an optional `Etag` header, the `content-type` header, and
the body bytes. -/
inductive DlAttempt
  | exn
  | resp (status : Nat) (etag : Option (List Char)) (ctype : List Char) (content : List Nat)
deriving DecidableEq, Repr

/-- Lines 647-671: raise on an empty url (line 654), a transport error, a
non-200 status, or a missing/empty `Etag`; else return the bytes, the Etag,
and the obfuscation flag `hit_encrypt` (content type not starting with
`image/`). -/
def dlStep (img_url : List Char) (a : DlAttempt) :
    Except PyExc (List Nat × List Char × Bool) :=
  if img_url = [] then .error .requestException
  else
    match a with
    | .exn => .error .requestException
    | .resp status etag ctype content =>
      if status ≠ 200 then .error .httpError
      else
        match etag with
        | none => .error .httpError
        | some m =>
          if m = [] then .error .httpError
          else .ok (content, m, !("image/".toList.isPrefixOf ctype))

/-- `int.from_bytes(-, byteorder="big")`. -/
def fromBytesBE (bs : List Nat) : Nat := bs.foldl (fun a b => a * 256 + b) 0

/-- The obfuscation-reversal step of lines 687-702 (the inner `_` under
`@retry(stop_max_attempt_number=1)`): pass the buffer through when `cpx`,
`hit_encrypt` or the buffer itself is falsy; otherwise reverse the
`[flag:1][length:4 BE][ciphertext:length][trailing key]` layout, raising
`ValueError` on a zero flag byte. -/
def decryptImg (unq : List Char → List Char) (b64 : List Char → List Nat)
    (aes : List Nat → List Nat → List Nat → List Nat)
    (cpx : List Char) (hit_encrypt : Bool) : List Nat → Except PyExc (List Nat)
  | [] => .ok []
  | flag :: rest =>
    if cpx = [] ∨ hit_encrypt = false then .ok (flag :: rest)
    else
      let cpx_char := b64 (unq cpx)
      let iv := (cpx_char.drop 60).take 16
      if flag = 0 then .error .valueError
      else
        let img := flag :: rest
        let data_length := fromBytesBE ((img.drop 1).take 4)
        let key := img.drop (data_length + 5)
        let content := (img.drop 5).take data_length
        .ok (aes (content.take 20496) key iv ++ content.drop 20496)

/-- Fuel-driven helper for `stripAppend`. -/
def stripAppendFuel (pat : List Char) : Nat → List Char → List Char
  | 0, l => l
  | _ + 1, [] => []
  | n + 1, c :: ts =>
    if pat.isPrefixOf (c :: ts) then stripAppendFuel pat n ((c :: ts).drop pat.length)
    else c :: stripAppendFuel pat n ts

/-- `str.replace(pat, "")`: delete every non-overlapping occurrence of a
nonempty pattern, scanning left to right. -/
def stripAppend (pat l : List Char) : List Char := stripAppendFuel pat l.length l

/-- Line 729: `img_url.split(".")[-1].split("?")[0].lower().replace("&append=", "")`. -/
def imgFormatOf (img_url : List Char) : List Char :=
  stripAppend "&append=".toList
    (((pySplit '?' ((pySplit '.' img_url).getLastD [])).headD []).map Char.toLower)

/-- Result of `downloadImg`: the returned staged path, the sentinel `None`,
or an escaped exception, together with the emitted events. -/
structure DlResult where
  result : Except PyExc (Option (List Char))
  events : List Event
deriving DecidableEq, Repr

/-- `downloadImg` (lines 632-758).  The download is wrapped in a
duration-bounded retry (`netO` supplies one response per allowed attempt),
the decryption runs exactly once (`stop_max_attempt_number=1`), the
configuration-gated checksum comparison raises `requests.HTTPError` on a
mismatch inside a `try` whose `except OSError` handler emits a warning and
re-raises (line 725), and the final write is wrapped in an attempt-bounded
retry (`saveO` supplies one outcome per allowed attempt).  `os.path.join`
is modelled with a `/` separator. -/
def downloadImg (md5h : List Nat → List Char) (unq : List Char → List Char)
    (b64 : List Char → List Nat) (aes : List Nat → List Nat → List Nat → List Nat)
    (idx index : Nat) (img_url cpx : List Char) (hash_check : Bool)
    (save_path : List Char) (netO : List DlAttempt) (saveO : List Bool) : DlResult :=
  match retryOp .requestException (dlStep img_url) netO with
  | .error _ => ⟨.ok none, [.warnDownloadFail]⟩
  | .ok (img, md5, hit_encrypt) =>
    let processed : Except PyExc (List Nat) :=
      match decryptImg unq b64 aes cpx hit_encrypt img with
      | .error e => .error e
      | .ok img2 =>
        if hash_check = true ∧ md5h img2 ≠ md5 then .error .httpError else .ok img2
    match processed with
    | .error e =>
      if e.isOSErr then ⟨.error e, [.warnProcessImgFail]⟩ else ⟨.error e, []⟩
    | .ok _ =>
      let path := save_path ++ '/' ::
        (natRepr idx ++ '_' :: (natRepr index ++ '.' :: imgFormatOf img_url))
      match retryOp .osError
          (fun ok => if ok then Except.ok () else Except.error PyExc.osError) saveO with
      | .error _ => ⟨.ok none, [.warnSaveFail]⟩
      | .ok _ => ⟨.ok (some path), []⟩

/-! ## Abort teardown: `clear` (Episode.py lines 351-359) -/

/-- The `for img in reversed(imgs_path)` loop of `clear`.  CPython's reverse
iterator holds an index that starts at `len - 1` and decrements; it yields
`imgs_path[i]` while `0 ≤ i < len` of the *live* (mutated) list.  Each
successful `os.remove(img)` is followed by `imgs_path.remove(img)`, which
deletes the first occurrence (`List.erase`).  A failing `os.remove` raises
`OSError`; there is no `try` in `clear`, so the loop stops there. -/
def clearGo (rm : List Char → Bool) : List (List Char) → Nat →
    Except PyExc (List (List Char))
  | xs, 0 => .ok xs
  | xs, i + 1 =>
    if h : i < xs.length then
      let img := xs.get ⟨i, h⟩
      if rm img then clearGo rm (xs.erase img) i else .error .osError
    else .ok xs

/-- `clear` (lines 351-359): best-effort teardown, no retry wrapper and no
`except` clause; returns the final state of the mutated `imgs_path` list and
the (always empty) list of emitted events. -/
def clear (rm : List Char → Bool) (xs : List (List Char)) :
    Except PyExc (List (List Char)) × List Event :=
  (clearGo rm xs xs.length, [])

/-! ## Archive staging: `saveToFolder` (Episode.py lines 451-514) -/

/-- `img_path.split(".")[-1]` (line 480). -/
def extOf (p : List Char) : List Char := (pySplit '.' p).getLastD []

/-- The destination of the move at lines 492-495:
`os.path.join(self.epi_path, f"{str(index).zfill(3)}.{img_format}")`. -/
def folder_dest (epi : List Char) (index : Nat) (p : List Char) : List Char :=
  epi ++ '/' :: (padNat 3 index ++ '.' :: extOf p)

/-- The `for index, img_path in enumerate(imgs_path, start=1)` move loop of
`saveToFolder` (lines 461-495), as the ordered list of `(source,
destination)` pairs it performs; `i` is the next 1-based index.  The
optional in-place jpg EXIF embedding does not change any path, and the
retry wrapper around the loop is orthogonal to the destinations. -/
def movesFrom (epi : List Char) : Nat → List (List Char) →
    List (List Char × List Char)
  | _, [] => []
  | i, p :: ps => (p, folder_dest epi i p) :: movesFrom epi (i + 1) ps

/-- All moves performed by `saveToFolder` on `imgs_path`. -/
def saveToFolder_moves (epi : List Char) (imgs : List (List Char)) :
    List (List Char × List Char) :=
  movesFrom epi 1 imgs

/-- Whether an `Except` value is a raised exception. -/
def exFails {α : Type} : Except PyExc α → Bool
  | .ok _ => false
  | .error _ => true

/-! ## Helper lemmas -/

theorem retry_first_ok {α β : Type} (dflt : PyExc) (step : α → Except PyExc β)
    (a : α) (rest : List α) (v : β) (h : step a = .ok v) :
    retryOp dflt step (a :: rest) = .ok v := by
  cases rest <;> simp [retryOp, h]

theorem retry_allfail {α β : Type} (dflt : PyExc) (step : α → Except PyExc β) :
    ∀ l : List α, (∀ a ∈ l, exFails (step a) = true) →
      ∃ e, retryOp dflt step l = .error e
  | [], _ => ⟨dflt, rfl⟩
  | [a], h => by
    cases hsa : step a with
    | ok v => simp [hsa, exFails] at h
    | error e => exact ⟨e, by simp [retryOp, hsa]⟩
  | a :: b :: r, h => by
    cases hsa : step a with
    | ok v => simp [hsa, exFails] at h
    | error e =>
      have ih := retry_allfail dflt step (b :: r)
        (fun x hx => h x (List.mem_cons_of_mem a hx))
      simpa [retryOp, hsa] using ih

theorem applySuffix_ok (fmt suf : List Char)
    (h : dictLit img_format_pairs fmt = some suf) :
    ∀ l : List (List Char), applySuffix fmt l = .ok (l.map (· ++ suf))
  | [] => rfl
  | u :: us => by simp [applySuffix, h, applySuffix_ok fmt suf h us]

theorem applySuffix_err (fmt : List Char) (u : List Char) (us : List (List Char))
    (h : dictLit img_format_pairs fmt = none) :
    applySuffix fmt (u :: us) = .error .keyError := by
  simp [applySuffix, h]

theorem stage1_cons_id (c : Char) (ts : List Char) (h : c.isDigit = false) :
    stage1 (c :: ts) = c :: ts := by
  simp [stage1, parseNumSp, List.takeWhile_cons, h]

theorem stage2_cons_id (c : Char) (ts : List Char) (h : c.isDigit = false) :
    stage2 (c :: ts) = c :: ts := by
  simp [stage2, parseNumSp, List.takeWhile_cons, h]

theorem stage3_cons_id (c : Char) (ts : List Char) (h : ¬c = '特') :
    stage3 (c :: ts) = c :: ts := by
  simp [stage3, dupTbpSplit, tbp, List.take_cons, h]

theorem stage4_cons_id (c : Char) (ts : List Char) (h : isCls c = false) :
    stage4 (c :: ts) = c :: ts := by
  simp [stage4, List.takeWhile_cons, h]

theorem stage1_shape (t : List Char) : stage1 t = t ∨ ∃ r, stage1 t = '第' :: r := by
  unfold stage1
  dsimp only
  repeat' split
  all_goals first
    | exact Or.inl rfl
    | exact Or.inr ⟨_, rfl⟩

theorem stage2_shape (t : List Char) : stage2 t = t ∨ ∃ r, stage2 t = '第' :: r := by
  unfold stage2
  dsimp only
  repeat' split
  all_goals first
    | exact Or.inl rfl
    | exact Or.inr ⟨_, rfl⟩

theorem stage3_shape (t : List Char) : stage3 t = t ∨ ∃ r, stage3 t = '特' :: r := by
  unfold stage3
  split
  · exact Or.inr ⟨_, rfl⟩
  · exact Or.inl rfl

theorem stage4_shape (t : List Char) : stage4 t = t ∨ ∃ r, stage4 t = '第' :: r := by
  unfold stage4
  dsimp only
  repeat' split
  all_goals first
    | exact Or.inl rfl
    | exact Or.inr ⟨_, rfl⟩

/-- A title whose first character is `第` is left unchanged by the whole
cleanup pass. -/
theorem cleanup_cons_di (r : List Char) : cleanup ('第' :: r) = '第' :: r := by
  rw [cleanup, stage1_cons_id '第' r (by decide), stage2_cons_id '第' r (by decide),
    stage3_cons_id '第' r (by decide), stage4_cons_id '第' r (by decide)]

/-- A title whose first character is `特` and which does not match the
duplicated-`特别篇` pattern is left unchanged by the whole cleanup pass. -/
theorem cleanup_cons_te (r : List Char) (h : dupTbpSplit ('特' :: r) = none) :
    cleanup ('特' :: r) = '特' :: r := by
  have h3 : stage3 ('特' :: r) = '特' :: r := by simp [stage3, h]
  rw [cleanup, stage1_cons_id '特' r (by decide), stage2_cons_id '特' r (by decide), h3,
    stage4_cons_id '特' r (by decide)]

/-- The cleanup pass is idempotent on every string whose cleaned form does
not still start with the duplicated-`特别篇` pattern. -/
theorem cleanup_idem (t : List Char) (h : dupTbpSplit (cleanup t) = none) :
    cleanup (cleanup t) = cleanup t := by
  rcases stage1_shape t with h1 | ⟨r1, h1⟩
  · rcases stage2_shape t with h2 | ⟨r2, h2⟩
    · rcases stage3_shape t with h3 | ⟨r3, h3⟩
      · rcases stage4_shape t with h4 | ⟨r4, h4⟩
        · have hc : cleanup t = t := by rw [cleanup, h1, h2, h3, h4]
          rw [hc] at h ⊢
          rw [hc]
        · have hc : cleanup t = '第' :: r4 := by rw [cleanup, h1, h2, h3, h4]
          rw [hc]
          exact cleanup_cons_di r4
      · have hc : cleanup t = '特' :: r3 := by
          rw [cleanup, h1, h2, h3, stage4_cons_id '特' r3 (by decide)]
        rw [hc] at h ⊢
        exact cleanup_cons_te r3 h
    · have hc : cleanup t = '第' :: r2 := by
        rw [cleanup, h1, h2, stage3_cons_id '第' r2 (by decide),
          stage4_cons_id '第' r2 (by decide)]
      rw [hc]
      exact cleanup_cons_di r2
  · have hc : cleanup t = '第' :: r1 := by
      rw [cleanup, h1, stage2_cons_id '第' r1 (by decide),
        stage3_cons_id '第' r1 (by decide), stage4_cons_id '第' r1 (by decide)]
    rw [hc]
    exact cleanup_cons_di r1

theorem movesFrom_get (epi : List Char) :
    ∀ (imgs : List (List Char)) (j i : Nat) (p : List Char),
      imgs.get? i = some p →
      (movesFrom epi j imgs).get? i = some (p, folder_dest epi (j + i) p)
  | [], _, i, p, h => by simp at h
  | q :: ps, j, 0, p, h => by
    simp at h
    subst h
    simp [movesFrom]
  | q :: ps, j, i + 1, p, h => by
    simp only [List.get?_cons_succ] at h
    have := movesFrom_get epi ps (j + 1) i p h
    simpa [movesFrom, Nat.add_assoc, Nat.add_comm 1 i] using this

theorem movesFrom_length (epi : List Char) :
    ∀ (imgs : List (List Char)) (j : Nat),
      (movesFrom epi j imgs).length = imgs.length
  | [], _ => rfl
  | _ :: ps, j => by simp [movesFrom, movesFrom_length epi ps (j + 1)]

/-! ## The claims -/

/-- C1 (counterexample): with the integrity check enabled, a payload whose
recomputed checksum differs from the captured Etag does NOT trigger a
re-download: even though the oracle holds a second payload whose checksum
would match (so a restarted download would succeed and return a staged
path), `downloadImg` raises `requests.HTTPError` to its caller after a
single download, instead of re-downloading and eventually degrading to the
`None` sentinel. -/
theorem checksum_mismatch_no_redownload :
    downloadImg (fun _ => ['X']) id (fun _ => []) (fun c _ _ => c) 0 1
        ("u.jpg".toList) [] true ("s".toList)
        [.resp 200 (some ['E']) ("image/jpeg".toList) [1],
         .resp 200 (some ['X']) ("image/jpeg".toList) [1]] [true] =
      ⟨.error .httpError, [.warnProcessImgFail]⟩ := by decide

/-- C1 (amended): when the integrity check is enabled and the recomputed
checksum of the final image bytes differs from the Etag captured during
download, `downloadImg` emits one warning event and re-raises the error to
its caller (line 725); no additional download attempt is made inside
`downloadImg` and no sentinel skip is returned. -/
theorem checksum_mismatch_raises (md5h : List Nat → List Char)
    (unq : List Char → List Char) (b64 : List Char → List Nat)
    (aes : List Nat → List Nat → List Nat → List Nat) (idx index : Nat)
    (img_url cpx save_path : List Char) (a : DlAttempt) (netRest : List DlAttempt)
    (saveO : List Bool) (img img2 : List Nat) (md5 : List Char) (hit : Bool)
    (hstep : dlStep img_url a = .ok (img, md5, hit))
    (hdec : decryptImg unq b64 aes cpx hit img = .ok img2)
    (hmm : md5h img2 ≠ md5) :
    downloadImg md5h unq b64 aes idx index img_url cpx true save_path
        (a :: netRest) saveO = ⟨.error .httpError, [.warnProcessImgFail]⟩ := by
  have hr := retry_first_ok .requestException (dlStep img_url) a netRest _ hstep
  simp [downloadImg, hr, hdec, hmm, PyExc.isOSErr]

/-- C1 (witness for the amended claim). -/
theorem checksum_mismatch_raises_witness :
    downloadImg (fun _ => ['X']) id (fun _ => []) (fun c _ _ => c) 0 1
        ("u.jpg".toList) [] true ("s".toList)
        [.resp 200 (some ['E']) ("image/jpeg".toList) [2]] [] =
      ⟨.error .httpError, [.warnProcessImgFail]⟩ :=
  checksum_mismatch_raises (fun _ => ['X']) id (fun _ => []) (fun c _ _ => c)
    0 1 ("u.jpg".toList) [] ("s".toList) _ [] [] [2] [2] ['E'] false
    (by decide) (by decide) (by decide)

/-- C2 (counterexample): an obfuscated buffer whose flag byte is zero makes
the decryption step raise `ValueError`, which is not an `OSError` and is
not caught by any handler in `downloadImg`: the exception escapes the
public operation (and no warning event is emitted on this path). -/
theorem valueerror_escapes_downloadImg :
    downloadImg (fun _ => ['X']) id (fun _ => []) (fun c _ _ => c) 0 1
        ("u.jpg".toList) ("c".toList) false ("s".toList)
        [.resp 200 (some ['X']) ("text/plain".toList) [0, 1, 2]] [true] =
      ⟨.error .valueError, []⟩ := by decide

/-- C2 (amended): the transient-network paths do satisfy the propagation
policy — when every allowed attempt of the image-list fetch fails,
`init_imgsList` returns the `False` sentinel plus one warning event; when
the list fetch succeeds, the format tier is recognized, and every allowed
attempt of the token fetch fails, `init_imgsList` returns the `False`
sentinel plus one warning event; and when every allowed attempt of the
image download fails, `downloadImg` returns the `None` sentinel plus one
warning event — but an unrecognized
image-format tier (KeyError), a zero-flag decryption buffer (ValueError), a
checksum mismatch (HTTPError) and an `OSError` inside `clear` all escape as
raised exceptions. -/
theorem network_exhaustion_returns_sentinel (flag : Bool) (fmt : List Char)
    (listO : List ListAttempt) (tokO : List TokAttempt)
    (fmt2 suf2 : List Char) (listO2 : List ListAttempt)
    (imgs2 : List (List Char)) (tokO2 : List TokAttempt)
    (md5h : List Nat → List Char) (unq : List Char → List Char)
    (b64 : List Char → List Nat) (aes : List Nat → List Nat → List Nat → List Nat)
    (idx index : Nat) (img_url cpx save_path : List Char) (hc : Bool)
    (netO : List DlAttempt) (saveO : List Bool)
    (h1 : ∀ a ∈ listO, exFails (listStep a) = true)
    (h3 : retryOp .requestException listStep listO2 = .ok imgs2)
    (h4 : dictLit img_format_pairs fmt2 = some suf2)
    (h5 : ∀ a ∈ tokO2, exFails (tokStep a) = true)
    (h2 : ∀ a ∈ netO, exFails (dlStep img_url a) = true) :
    init_imgsList flag fmt listO tokO = ⟨.ok false, flag, [.warnListFail]⟩ ∧
    init_imgsList flag fmt2 listO2 tokO2 = ⟨.ok false, flag, [.warnTokenFail]⟩ ∧
    downloadImg md5h unq b64 aes idx index img_url cpx hc save_path netO saveO =
      ⟨.ok none, [.warnDownloadFail]⟩ := by
  obtain ⟨e1, he1⟩ := retry_allfail .requestException listStep listO h1
  obtain ⟨e3, he3⟩ := retry_allfail .requestException tokStep tokO2 h5
  obtain ⟨e2, he2⟩ := retry_allfail .requestException (dlStep img_url) netO h2
  have hs := applySuffix_ok fmt2 suf2 h4 imgs2
  exact ⟨by simp [init_imgsList, he1],
    by simp [init_imgsList, h3, hs, he3],
    by simp [downloadImg, he2]⟩

/-- C2 (witness for the amended claim). -/
theorem network_exhaustion_returns_sentinel_witness :
    init_imgsList false ("default".toList) [.exn, .exn] [] =
      ⟨.ok false, false, [.warnListFail]⟩ ∧
    init_imgsList false ("default".toList) [.resp 200 [("p".toList)]]
        [.exn, .resp 200 1 []] =
      ⟨.ok false, false, [.warnTokenFail]⟩ ∧
    downloadImg (fun _ => []) id (fun _ => []) (fun c _ _ => c) 0 1
        ("u".toList) [] false ("s".toList) [.exn, .resp 500 none [] []] [] =
      ⟨.ok none, [.warnDownloadFail]⟩ :=
  network_exhaustion_returns_sentinel false ("default".toList) [.exn, .exn] []
    ("default".toList) [] [.resp 200 [("p".toList)]] [("p".toList)]
    [.exn, .resp 200 1 []]
    (fun _ => []) id (fun _ => []) (fun c _ _ => c) 0 1 ("u".toList) []
    ("s".toList) false [.exn, .resp 500 none [] []] []
    (by decide) (by decide) (by decide) (by decide) (by decide)

/-- C3 (code evaluated at the failing input): `rules` is obtained by
splitting the rule string on `"&"`, so no element of `rules` can ever be
the literal `"short&long"` — the collapse guard of line 115 is dead — and
for rule `"short&long"`, short `"第1话"`, long `"第1话 开始"` the rendered
title is `"第1话 第1话 开始"`, which contains the short title twice. -/
theorem rename_short_long_collapse_dead :
    (pySplit '&' ("short&long".toList)).contains ("short&long".toList) = false ∧
    rename_title ("short&long".toList)
        { title := get_default_title ("第1话".toList) ("第1话 开始".toList),
          short_title := "第1话".toList, long_title := "第1话 开始".toList,
          ordStr := "1".toList, idx := 1 } =
      .ok { title := "第1话 第1话 开始".toList, short_title := "第1话".toList,
            long_title := "第1话 开始".toList, ordStr := "1".toList, idx := 1 } := by
  exact ⟨by decide, by decide⟩

/-- C4 (code evaluated at the failing input): the `short == long or
long == ""` branch of lines 157-158 is a dead store, so for a non-empty
short title and an empty long title the pre-cleanup result is
`short + " "` with a trailing space, not the bare short title (and the
regex cleanups do not remove it). -/
theorem default_title_trailing_space_on_empty_long :
    title_pre_cleanup ("测试".toList) [] = ("测试 ".toList) ∧
    ("测试 ".toList : List Char) ≠ ("测试".toList) ∧
    get_default_title ("测试".toList) [] = ("测试 ".toList) := by
  exact ⟨by decide, by decide, by decide⟩

/-- C5: for every buffer with a non-zero flag byte (and truthy `cpx` and
`hit_encrypt`), the reversal transform computes the ciphertext length from
bytes 1..5 big-endian, takes the ciphertext region at bytes 5..5+length and
the key from the bytes after it, takes the IV from bytes 60..76 of the
decoded key-exchange parameter, and outputs the AES-CBC decryption of the
first 20496 ciphertext bytes concatenated with the untouched ciphertext
remainder; being a pure function of these inputs, repeated reversal of
identical inputs yields byte-identical output. -/
theorem decrypt_transform_spec (unq : List Char → List Char)
    (b64 : List Char → List Nat) (aes : List Nat → List Nat → List Nat → List Nat)
    (cpx : List Char) (flag : Nat) (rest : List Nat)
    (hcpx : cpx ≠ []) (hflag : flag ≠ 0) :
    decryptImg unq b64 aes cpx true (flag :: rest) =
      .ok (aes ((((flag :: rest).drop 5).take
                  (fromBytesBE (((flag :: rest).drop 1).take 4))).take 20496)
               ((flag :: rest).drop (fromBytesBE (((flag :: rest).drop 1).take 4) + 5))
               (((b64 (unq cpx)).drop 60).take 16) ++
            (((flag :: rest).drop 5).take
                  (fromBytesBE (((flag :: rest).drop 1).take 4))).drop 20496) := by
  simp [decryptImg, hcpx, hflag]

/-- C5 (witness). -/
theorem decrypt_transform_spec_witness :
    decryptImg id (fun _ => List.range 80) (fun c _ _ => c) ['a'] true
        [7, 0, 0, 0, 3, 10, 11, 12, 99] = .ok [10, 11, 12] := by
  have := decrypt_transform_spec id (fun _ => List.range 80) (fun c _ _ => c)
    ['a'] 7 [0, 0, 0, 3, 10, 11, 12, 99] (by decide) (by decide)
  simpa using this

/-- C6: with a recognized image-format tier, once the process-wide
`need_sms_verify` flag is true every `init_imgsList` call returns `False`
and leaves the flag true (first conjunct); and whenever both fetches
succeed and the first token entry carries the `token=` marker in neither
its `complete_url` nor its `url`, the call returns `False` with the flag
set to true — for any prior flag value — emitting the verification prompt
exactly when the flag was not already set (second conjunct).
`init_imgsList` is the only operation of the core that reads or writes the
flag, and it never writes `false`. -/
theorem lockout_sticky (fmt suf : List Char) (listO : List ListAttempt)
    (tokO : List TokAttempt)
    (hfmt : dictLit img_format_pairs fmt = some suf) :
    ((init_imgsList true fmt listO tokO).result = .ok false ∧
     (init_imgsList true fmt listO tokO).need_sms_verify = true) ∧
    (∀ (flag : Bool) (imgs : List (List Char)) (data : List TokenEntry)
        (first : TokenEntry),
      retryOp .requestException listStep listO = .ok imgs →
      retryOp .requestException tokStep tokO = .ok data →
      data.head? = some first →
      isSubstr tokenMarker first.complete_url = false →
      isSubstr tokenMarker first.url = false →
      init_imgsList flag fmt listO tokO =
        ⟨.ok false, true, if flag then [] else [.confirmSmsVerify]⟩) := by
  constructor
  · cases hl : retryOp .requestException listStep listO with
    | error e => simp [init_imgsList, hl]
    | ok imgs =>
      have hs := applySuffix_ok fmt suf hfmt imgs
      cases ht : retryOp .requestException tokStep tokO with
      | error e => simp [init_imgsList, hl, hs, ht]
      | ok data => simp [init_imgsList, hl, hs, ht]
  · intro flag imgs data first hl ht hh hc1 hc2
    have hs := applySuffix_ok fmt suf hfmt imgs
    cases flag with
    | true => simp [init_imgsList, hl, hs, ht]
    | false => simp [init_imgsList, hl, hs, ht, hh, hc1, hc2]

/-- C6 (witness). -/
theorem lockout_sticky_witness :
    (init_imgsList true ("default".toList) [.resp 200 []] []).result = .ok false ∧
    init_imgsList false ("default".toList) [.resp 200 []]
        [.resp 200 0 [⟨"u".toList, "c".toList, "t".toList⟩]] =
      ⟨.ok false, true, [.confirmSmsVerify]⟩ := by
  refine ⟨(lockout_sticky ("default".toList) [] [.resp 200 []] [] (by decide)).1.1, ?_⟩
  have := (lockout_sticky ("default".toList) [] [.resp 200 []]
      [.resp 200 0 [⟨"u".toList, "c".toList, "t".toList⟩]] (by decide)).2 false []
      [⟨"u".toList, "c".toList, "t".toList⟩] ⟨"u".toList, "c".toList, "t".toList⟩
      (by decide) (by decide) (by decide) (by decide) (by decide)
  simpa using this

/-- C7 (counterexample): `clear` has no `try`/`except`, so an `OSError`
raised by `os.remove` propagates out of `clear` instead of being
swallowed. -/
theorem clear_oserror_propagates :
    (clear (fun _ => false) [("a".toList)]).1 = .error .osError := by decide

/-- C7 (amended): `clear` is a non-retrying best-effort teardown that emits
no warning event on any input, and when every removal succeeds it deletes
every staged file; but an `OSError` raised during a removal propagates to
the caller rather than being swallowed inside `clear`. -/
theorem clear_silent_best_effort (rm : List Char → Bool) (xs : List (List Char)) :
    (clear rm xs).2 = [] ∧
    ((∀ x ∈ xs, rm x = true) → (clear rm xs).1 = .ok []) := by
  refine ⟨rfl, fun hall => ?_⟩
  suffices h : ∀ (n : Nat) (ys : List (List Char)), ys.length = n →
      (∀ x ∈ ys, rm x = true) → clearGo rm ys n = .ok [] by
    exact h xs.length xs rfl hall
  intro n
  induction n with
  | zero =>
    intro ys hlen _
    rw [List.length_eq_zero] at hlen
    subst hlen
    rfl
  | succ k ih =>
    intro ys hlen hys
    have hk : k < ys.length := by omega
    have hmem : ys.get ⟨k, hk⟩ ∈ ys := ys.get_mem k hk
    have hrm : rm (ys.get ⟨k, hk⟩) = true := hys _ hmem
    have hlen' : (ys.erase (ys.get ⟨k, hk⟩)).length = k := by
      rw [List.length_erase_of_mem hmem, hlen]
      omega
    simp only [clearGo, dif_pos hk, hrm, if_true]
    exact ih _ hlen' (fun x hx => hys x (List.mem_of_mem_erase hx))

/-- C7 (witness for the amended claim). -/
theorem clear_silent_best_effort_witness :
    (clear (fun _ => true) ["a".toList, "b".toList]).2 = [] ∧
    (clear (fun _ => true) ["a".toList, "b".toList]).1 = .ok [] :=
  ⟨(clear_silent_best_effort (fun _ => true) ["a".toList, "b".toList]).1,
   (clear_silent_best_effort (fun _ => true) ["a".toList, "b".toList]).2
     (by decide)⟩

/-- C8: the move loop of `saveToFolder` produces one move per staged input,
and the i-th input (1-based, in input order) is sent to
`<epi_path>/<zero-padded 3-digit i>.<extension of the input>`; so N staged
inputs yield exactly the destinations `001.<ext>` … zero-padded-`N.<ext>`
in input order. -/
theorem saveToFolder_moves_spec (epi : List Char) (imgs : List (List Char)) :
    (saveToFolder_moves epi imgs).length = imgs.length ∧
    (∀ (i : Nat) (p : List Char), imgs.get? i = some p →
      (saveToFolder_moves epi imgs).get? i =
        some (p, epi ++ '/' :: (padNat 3 (i + 1) ++ '.' :: extOf p))) := by
  constructor
  · exact movesFrom_length epi imgs 1
  · intro i p h
    have := movesFrom_get epi imgs 1 i p h
    simpa [folder_dest, Nat.add_comm 1 i] using this

/-- C8 (witness). -/
theorem saveToFolder_moves_spec_witness :
    (saveToFolder_moves ("sv/t".toList)
        ["x/0_1.jpg".toList, "x/0_2.png".toList, "x/0_3.jpg".toList]).get? 2 =
      some ("x/0_3.jpg".toList, "sv/t/003.jpg".toList) := by
  have := (saveToFolder_moves_spec ("sv/t".toList)
      ["x/0_1.jpg".toList, "x/0_2.png".toList, "x/0_3.jpg".toList]).2 2
      ("x/0_3.jpg".toList) (by decide)
  exact this.trans (by decide)

/-- C9 (counterexample): re-applying the cleanup stage to a title the
normalizer has already produced can change it: for short = long =
`"特别篇 特别篇 特别篇"` the produced title is `"特别篇 特别篇"`, whose
cleanup is `"特别篇"` — the cleanup stage is not idempotent on every
produced title. -/
theorem cleanup_not_idempotent_on_output :
    cleanup (get_default_title ("特别篇 特别篇 特别篇".toList)
        ("特别篇 特别篇 特别篇".toList)) ≠
      get_default_title ("特别篇 特别篇 特别篇".toList)
        ("特别篇 特别篇 特别篇".toList) := by decide

/-- C9 (amended): re-running `get_default_title` with unchanged short/long
inputs trivially reproduces its output (it is a pure function), and the
cleanup stage leaves any produced title unchanged EXCEPT when the produced
title still begins with the duplicated `特别篇\s+特别篇` pattern (which
happens when the pre-cleanup title carries three or more leading `特别篇`
repetitions); outside that case the cleanup is idempotent on produced
titles. -/
theorem get_default_title_cleanup_idem (s l : List Char)
    (h : dupTbpSplit (get_default_title s l) = none) :
    cleanup (get_default_title s l) = get_default_title s l :=
  cleanup_idem (title_pre_cleanup s l) h

/-- C9 (witness for the amended claim). -/
theorem get_default_title_cleanup_idem_witness :
    dupTbpSplit (get_default_title ("第1话".toList) ("第1话 开始".toList)) = none ∧
    cleanup (get_default_title ("第1话".toList) ("第1话 开始".toList)) =
      get_default_title ("第1话".toList) ("第1话 开始".toList) :=
  ⟨by decide, get_default_title_cleanup_idem ("第1话".toList) ("第1话 开始".toList)
    (by decide)⟩

/-- C10: the `img_format_list` literal binds `"1400webp"` twice, so the key
resolves to the 1100-width suffix `"@1100w.webp"`; the key `"1100webp"` is
absent; and for any configured `img_format` missing from the table, once
the image-list fetch has succeeded with a non-empty list (the line-252
lookup sits inside the comprehension, so an empty list performs no lookup),
`init_imgsList` raises an uncaught `KeyError` instead of returning the
`False` sentinel, emitting no event. -/
theorem img_format_table_inconsistent :
    dictLit img_format_pairs ("1400webp".toList) = some ("@1100w.webp".toList) ∧
    dictLit img_format_pairs ("1100webp".toList) = none ∧
    (∀ (flag : Bool) (fmt : List Char) (listO : List ListAttempt)
        (tokO : List TokAttempt) (imgs : List (List Char)),
      retryOp .requestException listStep listO = .ok imgs →
      imgs ≠ [] →
      dictLit img_format_pairs fmt = none →
      init_imgsList flag fmt listO tokO = ⟨.error .keyError, flag, []⟩) := by
  refine ⟨by decide, by decide, ?_⟩
  intro flag fmt listO tokO imgs h1 hne h2
  cases imgs with
  | nil => exact absurd rfl hne
  | cons u us =>
    have hs := applySuffix_err fmt u us h2
    simp [init_imgsList, h1, hs]

/-- C10 (witness). -/
theorem img_format_table_inconsistent_witness :
    init_imgsList false ("1100webp".toList) [.resp 200 [("p".toList)]] [] =
      ⟨.error .keyError, false, []⟩ :=
  img_format_table_inconsistent.2.2 false ("1100webp".toList)
    [.resp 200 [("p".toList)]] [] [("p".toList)] (by decide) (by decide)
    (by decide)
